import Mathlib

/-!
Verification of the port-forwarding data plane in
`kube-client/src/api/portforward.rs`.

The Rust code runs several cooperative loops that communicate only through a
bounded queue of `Message` values.  We embed the pure decision logic of each
loop as a Lean function:

* `step` / `runCoord` — the coordinator state machine of `forwarder_loop`:
  per-channel handshake validation, routing of inbound frames to local
  endpoints or one-shot error signals, and serialization of outbound frames.
* `from_pod_loop` — the inbound demultiplexer: which transport messages
  reach the queue and how they are split into channel id + payload.
* `to_pod_loop` — the per-port outbound loop: which local read chunks are
  forwarded and with which channel id.
* `pfPoll` / `pfComplete` — the completion cell shared between the
  background task and the caller-facing future.

External I/O (the websocket itself, the tokio duplex pipes, the mpsc queue)
always succeeds in this embedding; its failure modes are environment faults,
not decisions of the code under verification.  Machine integers are embedded
as `Nat` with explicit `% 256` where the Rust code truncates (`i as u8`).
-/

namespace Portforward

/-- The error taxonomy of `enum Error` in `portforward.rs`.  Payload-free
variants stand for errors whose Rust payload is an external I/O error object;
`InvalidErrorMessage` likewise carries a `FromUtf8Error` in Rust. -/
inductive Error where
  | InvalidChannel (ch : Nat)
  | InvalidInitialFrameSize
  | InvalidPortMapping (actual expected : Nat)
  | ForwardFromPod
  | ForwardToPod
  | WriteBytesFromPod
  | ReadBytesToSend
  | InvalidErrorMessage
  | ForwardErrorMessage (msg : List Nat)
  | SendWebSocketMessage
  | ReceiveWebSocketMessage
deriving DecidableEq, Repr

/-- The internal queue message, `enum Message` in the source: a channel id
(`u8`, embedded as `Nat`) and a byte payload (embedded as `List Nat`). -/
inductive Message where
  | FromPod (ch : Nat) (payload : List Nat)
  | ToPod (ch : Nat) (payload : List Nat)
deriving DecidableEq, Repr

/-- A transport (websocket) message, the cases of `tungstenite::Message`. -/
inductive WsMessage where
  | binary (b : List Nat)
  | text (t : List Nat)
  | ping (b : List Nat)
  | pong (b : List Nat)
  | close
  | frame
deriving DecidableEq, Repr

/-- Whether a byte is a UTF-8 continuation byte (`0x80..=0xBF`). -/
def utf8Cont (b : Nat) : Bool := 0x80 ≤ b && b ≤ 0xBF

/-- UTF-8 validity of a byte list, as checked by Rust's
`String::from_utf8`: rejects overlong encodings, surrogates and code points
above U+10FFFF. -/
def utf8Valid : List Nat → Bool
  | [] => true
  | b :: rest =>
    if b ≤ 0x7F then utf8Valid rest
    else if 0xC2 ≤ b && b ≤ 0xDF then
      match rest with
      | b1 :: rest1 => utf8Cont b1 && utf8Valid rest1
      | [] => false
    else if b = 0xE0 then
      match rest with
      | b1 :: b2 :: rest2 =>
          (0xA0 ≤ b1 && b1 ≤ 0xBF) && utf8Cont b2 && utf8Valid rest2
      | _ => false
    else if 0xE1 ≤ b && b ≤ 0xEC then
      match rest with
      | b1 :: b2 :: rest2 => utf8Cont b1 && utf8Cont b2 && utf8Valid rest2
      | _ => false
    else if b = 0xED then
      match rest with
      | b1 :: b2 :: rest2 =>
          (0x80 ≤ b1 && b1 ≤ 0x9F) && utf8Cont b2 && utf8Valid rest2
      | _ => false
    else if 0xEE ≤ b && b ≤ 0xEF then
      match rest with
      | b1 :: b2 :: rest2 => utf8Cont b1 && utf8Cont b2 && utf8Valid rest2
      | _ => false
    else if b = 0xF0 then
      match rest with
      | b1 :: b2 :: b3 :: rest3 =>
          (0x90 ≤ b1 && b1 ≤ 0xBF) && utf8Cont b2 && utf8Cont b3 &&
            utf8Valid rest3
      | _ => false
    else if 0xF1 ≤ b && b ≤ 0xF3 then
      match rest with
      | b1 :: b2 :: b3 :: rest3 =>
          utf8Cont b1 && utf8Cont b2 && utf8Cont b3 && utf8Valid rest3
      | _ => false
    else if b = 0xF4 then
      match rest with
      | b1 :: b2 :: b3 :: rest3 =>
          (0x80 ≤ b1 && b1 ≤ 0x8F) && utf8Cont b2 && utf8Cont b3 &&
            utf8Valid rest3
      | _ => false
    else false

/-- State owned by `forwarder_loop` together with the observable effects it
produces.  `ports` is the expected remote port list; `inited` is the
`initialized` vector (`vec![false; 2 * ports.len()]`); `errorSenders`
records which one-shot error senders are still present (`Vec<Option<_>>`,
`true` = `Some`); `writers` accumulates the bytes written to each port's
local write half; `wsOut` accumulates the binary messages sent on the
websocket sink; `errorsFired` accumulates the error signals fired, as
(port index, UTF-8 bytes of the message). -/
structure CoordState where
  ports : List Nat
  inited : List Bool
  errorSenders : List Bool
  writers : List (List Nat)
  wsOut : List (List Nat)
  errorsFired : List (Nat × List Nat)
deriving DecidableEq, Repr

/-- The coordinator state at session start, as built by `Portforwarder::new`
and the first lines of `forwarder_loop`. -/
def mkState (ports : List Nat) : CoordState :=
  { ports := ports
  , inited := List.replicate (2 * ports.length) false
  , errorSenders := List.replicate ports.length true
  , writers := List.replicate ports.length []
  , wsOut := []
  , errorsFired := [] }

/-- `initialized[ch] = true;` — only the `inited` vector changes: no bytes
are written to any local endpoint, no error signal fires, nothing is sent. -/
def markInit (s : CoordState) (ch : Nat) : CoordState :=
  { s with inited := s.inited.set ch true }

/-- `writers[port_index].write_all(&bytes)` — appends `payload` to port
`idx`'s local write half; all other fields are unchanged. -/
def writeData (s : CoordState) (idx : Nat) (payload : List Nat) : CoordState :=
  { s with writers := s.writers.set idx (s.writers.getD idx [] ++ payload) }

/-- `error_senders[port_index].take()` followed by `sender.send(s)` —
consumes port `idx`'s one-shot sender and records the fired signal. -/
def fireError (s : CoordState) (idx : Nat) (payload : List Nat) : CoordState :=
  { s with
    errorSenders := s.errorSenders.set idx false
  , errorsFired := s.errorsFired ++ [(idx, payload)] }

/-- `ws_sink.send(ws::Message::binary(bin))` with `bin = ch :: payload`. -/
def sendWs (s : CoordState) (ch : Nat) (payload : List Nat) : CoordState :=
  { s with wsOut := s.wsOut ++ [ch :: payload] }

/-- One iteration of the `forwarder_loop` match on a received `Message`.
`Except.error e` is the loop's early `return Err(e)`; the little-endian
`get_u16_le` decode is `payload[0] + 256 * payload[1]`. -/
def step (s : CoordState) (m : Message) : Except Error CoordState :=
  match m with
  | .FromPod ch payload =>
    if ch ≥ s.inited.length then .error (.InvalidChannel ch)
    else
      let portIndex := ch / 2
      if !(s.inited.getD ch false) then
        if payload.length ≠ 2 then .error .InvalidInitialFrameSize
        else
          let port := payload.getD 0 0 + 256 * payload.getD 1 0
          if port ≠ s.ports.getD portIndex 0 then
            .error (.InvalidPortMapping port (s.ports.getD portIndex 0))
          else .ok (markInit s ch)
      else if ch % 2 ≠ 0 then
        if s.errorSenders.getD portIndex false then
          if utf8Valid payload then .ok (fireError s portIndex payload)
          else .error .InvalidErrorMessage
        else .ok s
      else
        .ok (writeData s portIndex payload)
  | .ToPod ch payload =>
    .ok (sendWs s ch payload)

/-- Run the coordinator over a list of queue messages, stopping at the first
error, as the `while let Some(msg) = receiver.next()` loop does. -/
def runCoord : CoordState → List Message → Except Error CoordState
  | s, [] => .ok s
  | s, m :: ms =>
    match step s m with
    | .ok s' => runCoord s' ms
    | .error e => .error e

/-- The inbound demultiplexer `from_pod_loop`: the queue messages produced
from a list of received transport messages.  Only `Binary(bin)` with
`bin.len() > 1` passes; the first byte becomes the channel id and the rest
the payload; everything else falls to the silent `_ => {}` arm. -/
def from_pod_loop (msgs : List WsMessage) : List Message :=
  msgs.filterMap fun m =>
    match m with
    | .binary b => if b.length > 1 then some (.FromPod (b.headD 0) b.tail) else none
    | _ => none

/-- The per-port outbound loop `to_pod_loop`: the queue messages produced
from the chunks read from the port's local endpoint.  Empty chunks are
skipped (`if !bytes.is_empty()`). -/
def to_pod_loop (ch : Nat) (chunks : List (List Nat)) : List Message :=
  chunks.filterMap fun c => if c.isEmpty then none else some (.ToPod ch c)

/-- The channel id `start_message_loop` attaches to port index `i`:
`let ch = 2 * (i as u8);` — `i as u8` truncates modulo 256 and the `u8`
multiplication wraps modulo 256. -/
def chFor (i : Nat) : Nat := 2 * (i % 256) % 256

/-- Well-formedness of a coordinator state: the vector lengths established
by `Portforwarder::new` / `start_message_loop` / `forwarder_loop`. -/
def WF (s : CoordState) : Prop :=
  s.inited.length = 2 * s.ports.length ∧
  s.writers.length = s.ports.length ∧
  s.errorSenders.length = s.ports.length

instance (s : CoordState) : Decidable (WF s) := by
  unfold WF; infer_instance

deriving instance DecidableEq for Except

/-- The shared completion cell `PortforwarderState`: an optional registered
waker (wakers embedded as `Nat` identities; `will_wake` is identity
equality) and the optional stored session result. -/
structure PFState where
  waker : Option Nat
  result : Option (Except Error Unit)
deriving DecidableEq, Repr

/-- Result of one `poll` call. -/
inductive PollRes where
  | ready (r : Except Error Unit)
  | pending
deriving DecidableEq, Repr

/-- `Portforwarder::poll`: `state.result.take()` resolves and consumes a
stored result; otherwise a waker equal to the registered one leaves the
state unchanged, and any other waker is registered. -/
def pfPoll (s : PFState) (w : Nat) : PollRes × PFState :=
  match s.result with
  | some r => (.ready r, { s with result := none })
  | none =>
    match s.waker with
    | some w' =>
      if w' = w then (.pending, s) else (.pending, { s with waker := some w })
    | none => (.pending, { s with waker := some w })

/-- The end of the spawned background task in `Portforwarder::new`: store
the result, then wake the registered waker (if any) exactly once.  Returns
the new state and the number of wake events. -/
def pfComplete (s : PFState) (r : Except Error Unit) : PFState × Nat :=
  ({ waker := none, result := some r }, if s.waker.isSome then 1 else 0)

/-- The websocket messages `to_pod_loop` output turns into, as sent by the
coordinator: one `ch :: c` frame per non-empty chunk `c`, in order. -/
def outFrames (ch : Nat) (chunks : List (List Nat)) : List (List Nat) :=
  chunks.filterMap fun c => if c.isEmpty then none else some (ch :: c)

/-- State with `out` appended to the websocket output trace. -/
def appendWs (s : CoordState) (out : List (List Nat)) : CoordState :=
  { s with wsOut := s.wsOut ++ out }

/-! ### Helper lemmas -/

lemma set_getD_self {α : Type} (l : List α) (i : Nat) (d : α) (h : i < l.length) :
    l.set i (l.getD i d) = l := by
  apply List.ext_getElem
  · simp
  · intro j h1 h2
    rw [List.getElem_set]
    split
    · subst j
      exact List.getD_eq_getElem l d h2
    · rfl

lemma getD_set_self {α : Type} (l : List α) (i : Nat) (d a : α) (h : i < l.length) :
    (l.set i a).getD i d = a := by
  rw [List.getD_eq_getElem _ _ (by simpa using h)]
  simp [List.getElem_set]

/-- Handshake frame with the expected port on an uninitialized channel:
the channel is marked initialized and nothing else changes. -/
lemma step_handshake_ok (s : CoordState) (ch lo hi : Nat)
    (hch : ch < s.inited.length)
    (hun : s.inited.getD ch false = false)
    (heq : lo + 256 * hi = s.ports.getD (ch / 2) 0) :
    step s (.FromPod ch [lo, hi]) = .ok (markInit s ch) := by
  simp only [List.getD_eq_getElem?_getD] at hun heq
  simp only [step]
  rw [if_neg (by omega)]
  simp [hun, heq]

/-- Handshake frame of the wrong size on an uninitialized channel. -/
lemma step_handshake_badsize (s : CoordState) (ch : Nat) (payload : List Nat)
    (hch : ch < s.inited.length)
    (hun : s.inited.getD ch false = false)
    (hlen : payload.length ≠ 2) :
    step s (.FromPod ch payload) = .error .InvalidInitialFrameSize := by
  simp only [List.getD_eq_getElem?_getD] at hun
  simp only [step]
  rw [if_neg (by omega)]
  simp [hun, hlen]

/-- Handshake frame with a mismatched port number on an uninitialized
channel. -/
lemma step_handshake_badport (s : CoordState) (ch lo hi : Nat)
    (hch : ch < s.inited.length)
    (hun : s.inited.getD ch false = false)
    (hne : lo + 256 * hi ≠ s.ports.getD (ch / 2) 0) :
    step s (.FromPod ch [lo, hi]) =
      .error (.InvalidPortMapping (lo + 256 * hi) (s.ports.getD (ch / 2) 0)) := by
  simp only [List.getD_eq_getElem?_getD] at hun hne ⊢
  simp only [step]
  rw [if_neg (by omega)]
  simp [hun, hne]

/-- Data frame on an initialized even channel: the payload is appended to
the port's local write half and nothing else changes. -/
lemma step_data (s : CoordState) (ch : Nat) (payload : List Nat)
    (hch : ch < s.inited.length)
    (hin : s.inited.getD ch false = true)
    (heven : ch % 2 = 0) :
    step s (.FromPod ch payload) = .ok (writeData s (ch / 2) payload) := by
  simp only [List.getD_eq_getElem?_getD] at hin
  simp only [step]
  rw [if_neg (by omega)]
  simp [hin, heven]

/-- Error frame on an initialized odd channel while the sender is present
and the payload is valid UTF-8: the sender is consumed and the signal
fires. -/
lemma step_err_fire (s : CoordState) (ch : Nat) (payload : List Nat)
    (hch : ch < s.inited.length)
    (hin : s.inited.getD ch false = true)
    (hodd : ch % 2 = 1)
    (hsend : s.errorSenders.getD (ch / 2) false = true)
    (hok : utf8Valid payload = true) :
    step s (.FromPod ch payload) = .ok (fireError s (ch / 2) payload) := by
  simp only [List.getD_eq_getElem?_getD] at hin hsend
  simp only [step]
  rw [if_neg (by omega)]
  simp [hin, hodd, hsend, hok]

/-- Error frame on an initialized odd channel while the sender is present
but the payload is not valid UTF-8. -/
lemma step_err_badutf8 (s : CoordState) (ch : Nat) (payload : List Nat)
    (hch : ch < s.inited.length)
    (hin : s.inited.getD ch false = true)
    (hodd : ch % 2 = 1)
    (hsend : s.errorSenders.getD (ch / 2) false = true)
    (hbad : utf8Valid payload = false) :
    step s (.FromPod ch payload) = .error .InvalidErrorMessage := by
  simp only [List.getD_eq_getElem?_getD] at hin hsend
  simp only [step]
  rw [if_neg (by omega)]
  simp [hin, hodd, hsend, hbad]

/-- Error frame on an initialized odd channel whose sender was already
consumed: the frame is dropped, the state is unchanged. -/
lemma step_err_dropped (s : CoordState) (ch : Nat) (payload : List Nat)
    (hch : ch < s.inited.length)
    (hin : s.inited.getD ch false = true)
    (hodd : ch % 2 = 1)
    (hsend : s.errorSenders.getD (ch / 2) false = false) :
    step s (.FromPod ch payload) = .ok s := by
  simp only [List.getD_eq_getElem?_getD] at hin hsend
  simp only [step]
  rw [if_neg (by omega)]
  simp [hin, hodd, hsend]

/-- `ToPod` always serializes `ch :: payload` onto the websocket sink. -/
lemma step_to_pod (s : CoordState) (ch : Nat) (payload : List Nat) :
    step s (.ToPod ch payload) = .ok (sendWs s ch payload) := rfl

/-- Running a block of data frames on an initialized even channel appends
their concatenation, in order, to that port's local write half. -/
lemma runCoord_data (ch : Nat) :
    ∀ (payloads : List (List Nat)) (s : CoordState),
      ch < s.inited.length → s.inited.getD ch false = true → ch % 2 = 0 →
      ch / 2 < s.writers.length →
      runCoord s (payloads.map (Message.FromPod ch)) =
        .ok (writeData s (ch / 2) payloads.flatten) := by
  intro payloads
  induction payloads with
  | nil =>
    intro s hch hin heven hidx
    simp only [List.map_nil, runCoord, List.flatten_nil, writeData, List.append_nil]
    rw [set_getD_self s.writers (ch / 2) [] hidx]
  | cons p ps ih =>
    intro s hch hin heven hidx
    simp only [List.map_cons, runCoord, step_data s ch p hch hin heven]
    rw [ih _ (by simpa [writeData] using hch) (by simpa [writeData] using hin)
        heven (by simpa [writeData] using hidx)]
    simp only [writeData, List.flatten_cons]
    rw [getD_set_self _ _ _ _ hidx, List.set_set, List.append_assoc]

lemma to_pod_loop_cons_skip (ch : Nat) (c : List Nat) (cs : List (List Nat))
    (hc : c.isEmpty = true) :
    to_pod_loop ch (c :: cs) = to_pod_loop ch cs := by
  have hc2 : c = [] := by simpa using hc
  subst hc2
  simp [to_pod_loop, List.filterMap_cons]

lemma to_pod_loop_cons_keep (ch : Nat) (c : List Nat) (cs : List (List Nat))
    (hc : c.isEmpty = false) :
    to_pod_loop ch (c :: cs) = .ToPod ch c :: to_pod_loop ch cs := by
  have hc2 : c ≠ [] := by simpa using hc
  simp [to_pod_loop, List.filterMap_cons, hc2]

lemma outFrames_cons_skip (ch : Nat) (c : List Nat) (cs : List (List Nat))
    (hc : c.isEmpty = true) :
    outFrames ch (c :: cs) = outFrames ch cs := by
  have hc2 : c = [] := by simpa using hc
  subst hc2
  simp [outFrames, List.filterMap_cons]

lemma outFrames_cons_keep (ch : Nat) (c : List Nat) (cs : List (List Nat))
    (hc : c.isEmpty = false) :
    outFrames ch (c :: cs) = (ch :: c) :: outFrames ch cs := by
  have hc2 : c ≠ [] := by simpa using hc
  simp [outFrames, List.filterMap_cons, hc2]

/-- Running the coordinator over the output of `to_pod_loop` appends one
websocket binary message `ch :: c` per non-empty chunk `c`, in order. -/
lemma runCoord_to_pod (ch : Nat) :
    ∀ (chunks : List (List Nat)) (s : CoordState),
      runCoord s (to_pod_loop ch chunks) = .ok (appendWs s (outFrames ch chunks)) := by
  intro chunks
  induction chunks with
  | nil => intro s; simp [to_pod_loop, outFrames, appendWs, runCoord]
  | cons c cs ih =>
    intro s
    cases hc : c.isEmpty
    · rw [to_pod_loop_cons_keep ch c cs hc, outFrames_cons_keep ch c cs hc]
      simp only [runCoord, step_to_pod]
      rw [ih (sendWs s ch c)]
      simp [appendWs, sendWs, List.append_assoc]
    · rw [to_pod_loop_cons_skip ch c cs hc, outFrames_cons_skip ch c cs hc]
      exact ih s

/-- `outFrames` is one `ch :: c` frame per chunk once all chunks are
non-empty. -/
lemma outFrames_of_ne (ch : Nat) :
    ∀ chunks : List (List Nat), (∀ c ∈ chunks, c ≠ []) →
      outFrames ch chunks = chunks.map fun c => ch :: c := by
  intro chunks
  induction chunks with
  | nil => intro _; rfl
  | cons c cs ih =>
    intro h
    have hc : c.isEmpty = false := by
      simpa using h c (List.mem_cons_self c cs)
    rw [outFrames_cons_keep ch c cs hc, List.map_cons,
      ih fun x hx => h x (List.mem_cons_of_mem c hx)]

/-! ### Claims -/

/-- C1: on a channel `ch < 2*N`, the first `FromPod` frame whose 2-byte
payload decodes (little-endian u16) to the expected port `P_{ch/2}` marks
`ch` initialized and is otherwise consumed without effect (`markInit`
changes only the `inited` vector: nothing is written to any local endpoint,
no error signal fires); afterwards, every `FromPod` frame on an even
initialized channel has its payload appended verbatim, in arrival order, to
local endpoint `ch/2`'s write half (`writeData` with the in-order
concatenation of the payloads). -/
theorem handshake_then_data_delivery (s : CoordState) (ch : Nat)
    (hwf : WF s) (hch : ch < 2 * s.ports.length) :
    (∀ lo hi : Nat, s.inited.getD ch false = false →
      lo + 256 * hi = s.ports.getD (ch / 2) 0 →
      step s (.FromPod ch [lo, hi]) = .ok (markInit s ch))
    ∧ (s.inited.getD ch false = true → ch % 2 = 0 →
      ∀ payloads : List (List Nat),
        runCoord s (payloads.map (Message.FromPod ch)) =
          .ok (writeData s (ch / 2) payloads.flatten)) := by
  obtain ⟨h1, h2, h3⟩ := hwf
  constructor
  · intro lo hi hun heq
    exact step_handshake_ok s ch lo hi (by omega) hun heq
  · intro hin heven payloads
    exact runCoord_data ch payloads s (by omega) hin heven (by omega)

/-- C1 witness: `N = 1`, expected port 8080; the handshake
`[0x90, 0x1F]` on channel 0 initializes it, and two subsequent data frames
`[72]`, `[73]` are written in order to port 0's endpoint. -/
theorem handshake_then_data_delivery_witness :
    step (mkState [8080]) (.FromPod 0 [144, 31]) = .ok (markInit (mkState [8080]) 0) ∧
    runCoord ⟨[8080], [true, false], [true], [[]], [], []⟩
        ([[72], [73]].map (Message.FromPod 0)) =
      .ok (writeData ⟨[8080], [true, false], [true], [[]], [], []⟩ 0
        [[72], [73]].flatten) :=
  ⟨(handshake_then_data_delivery (mkState [8080]) 0 (by decide) (by decide)).1
      144 31 (by decide) (by decide),
   (handshake_then_data_delivery ⟨[8080], [true, false], [true], [[]], [], []⟩ 0
      (by decide) (by decide)).2 (by decide) (by decide) [[72], [73]]⟩

/-- C2 counterexample: the claim fails as stated.  With `N = 1` and
expected port 80, after the handshake on error channel 1 and one valid
error frame `"ok"` (which consumes port 0's error sender), a further frame
on the initialized odd channel 1 with the non-UTF-8 payload `[255]` is
silently dropped (`.ok`, state unchanged) instead of terminating the
session with `InvalidErrorMessage`. -/
theorem invalid_utf8_after_consumed_sender_cex :
    runCoord (mkState [80]) [.FromPod 1 [80, 0], .FromPod 1 [111, 107]] =
      .ok ⟨[80], [false, true], [false], [[]], [], [(0, [111, 107])]⟩ ∧
    (⟨[80], [false, true], [false], [[]], [], [(0, [111, 107])]⟩ :
        CoordState).inited.getD 1 false = true ∧
    utf8Valid [255] = false ∧
    step ⟨[80], [false, true], [false], [[]], [], [(0, [111, 107])]⟩
        (.FromPod 1 [255]) =
      .ok ⟨[80], [false, true], [false], [[]], [], [(0, [111, 107])]⟩ := by
  decide

/-- C2 amended: for every inbound `FromPod` frame on an initialized odd
(error) channel `ch < 2*N` whose payload is not valid UTF-8 **and whose
port's error sender has not yet been consumed**, the coordinator terminates
the session with `InvalidErrorMessage`. -/
theorem invalid_utf8_with_sender_fails (s : CoordState) (ch : Nat)
    (payload : List Nat) (hwf : WF s) (hch : ch < 2 * s.ports.length)
    (hin : s.inited.getD ch false = true) (hodd : ch % 2 = 1)
    (hsend : s.errorSenders.getD (ch / 2) false = true)
    (hbad : utf8Valid payload = false) :
    step s (.FromPod ch payload) = .error .InvalidErrorMessage := by
  obtain ⟨h1, h2, h3⟩ := hwf
  exact step_err_badutf8 s ch payload (by omega) hin hodd hsend hbad

/-- C2 amended witness: with the sender still present, the non-UTF-8
payload `[255]` on initialized channel 1 fails the session. -/
theorem invalid_utf8_with_sender_fails_witness :
    step ⟨[80], [false, true], [true], [[]], [], []⟩ (.FromPod 1 [255]) =
      .error .InvalidErrorMessage :=
  invalid_utf8_with_sender_fails ⟨[80], [false, true], [true], [[]], [], []⟩
    1 [255] (by decide) (by decide) (by decide) (by decide) (by decide)
    (by decide)

/-- C3: on an uninitialized channel `ch < 2*N`, a handshake frame whose
2-byte payload decodes (little-endian) to a port different from the
expected `P_{ch/2}` terminates the session with `InvalidPortMapping`
carrying actual = decoded port and expected = `P_{ch/2}`. -/
theorem handshake_port_mismatch_fails (s : CoordState) (ch lo hi : Nat)
    (hwf : WF s) (hch : ch < 2 * s.ports.length)
    (hun : s.inited.getD ch false = false)
    (hlo : lo < 256) (hhi : hi < 256)
    (hne : lo + 256 * hi ≠ s.ports.getD (ch / 2) 0) :
    step s (.FromPod ch [lo, hi]) =
      .error (.InvalidPortMapping (lo + 256 * hi) (s.ports.getD (ch / 2) 0)) := by
  obtain ⟨h1, h2, h3⟩ := hwf
  exact step_handshake_badport s ch lo hi (by omega) hun hne

/-- C3 witness: expected port 8080, handshake announcing 9999
(`15 + 256 * 39`) fails with `InvalidPortMapping 9999 8080`. -/
theorem handshake_port_mismatch_fails_witness :
    step (mkState [8080]) (.FromPod 0 [15, 39]) =
      .error (.InvalidPortMapping 9999 8080) :=
  handshake_port_mismatch_fails (mkState [8080]) 0 15 39 (by decide)
    (by decide) (by decide) (by decide) (by decide) (by decide)

/-- C4: on an uninitialized channel `ch < 2*N`, a `FromPod` frame whose
payload length is not exactly 2 terminates the session with
`InvalidInitialFrameSize`; the error return happens before any write or
error-signal branch, so no bytes reach a local endpoint and no signal
fires. -/
theorem handshake_bad_size_fails (s : CoordState) (ch : Nat)
    (payload : List Nat) (hwf : WF s) (hch : ch < 2 * s.ports.length)
    (hun : s.inited.getD ch false = false)
    (hlen : payload.length ≠ 2) :
    step s (.FromPod ch payload) = .error .InvalidInitialFrameSize := by
  obtain ⟨h1, h2, h3⟩ := hwf
  exact step_handshake_badsize s ch payload (by omega) hun hlen

/-- C4 witness: a 3-byte initial payload on channel 0 fails. -/
theorem handshake_bad_size_fails_witness :
    step (mkState [8080]) (.FromPod 0 [1, 2, 3]) =
      .error .InvalidInitialFrameSize :=
  handshake_bad_size_fails (mkState [8080]) 0 [1, 2, 3] (by decide)
    (by decide) (by decide) (by decide)

/-- C5: for every port and every sequence of non-empty chunks read from its
local endpoint, `to_pod_loop` plus the coordinator's `ToPod` branch emit
outbound binary messages `ch :: chunk` — first byte the port's data channel
id, remaining bytes the chunk verbatim — one per chunk, in the same order,
with no reordering or drops. -/
theorem outbound_round_trip (s : CoordState) (ch : Nat)
    (chunks : List (List Nat)) (hne : ∀ c ∈ chunks, c ≠ []) :
    runCoord s (to_pod_loop ch chunks) =
      .ok (appendWs s (chunks.map fun c => ch :: c)) := by
  rw [runCoord_to_pod ch chunks s, outFrames_of_ne ch chunks hne]

/-- C5 witness: caller writes `"OK"` split as chunks `[79]`, `[75]`; the
transport sees `[0, 79]` then `[0, 75]`, in order. -/
theorem outbound_round_trip_witness :
    runCoord (mkState [8080]) (to_pod_loop 0 [[79], [75]]) =
      .ok (appendWs (mkState [8080]) [[0, 79], [0, 75]]) := by
  have h := outbound_round_trip (mkState [8080]) 0 [[79], [75]] (by decide)
  simpa using h

/-- C6 counterexample: the claim fails as stated for port index 128
(which exists whenever `N ≥ 129`): the attached channel id is
`2 * (128 as u8) = 0`, not `2 * 128 = 256`. -/
theorem channel_id_wraps_cex : chFor 128 ≠ 2 * 128 := by decide

/-- C6 amended: for every port index `i < 128` the attached outbound data
channel id equals `2*i`, channel `2*i + 1` is routed by the coordinator as
the error channel of port `i` (it is odd and `(2*i+1)/2 = i`), and the
coordinator tracks `2*N` channels for every port list of length `N`.  For
`i ≥ 128` the `u8` arithmetic wraps: the id is `2 * (i % 256) % 256`. -/
theorem channel_numbering (i : Nat) (ports : List Nat) (h : i < 128) :
    chFor i = 2 * i ∧ (2 * i + 1) % 2 = 1 ∧ (2 * i + 1) / 2 = i ∧
      (mkState ports).inited.length = 2 * ports.length := by
  refine ⟨?_, by omega, by omega, by simp [mkState]⟩
  simp only [chFor]
  omega

/-- C6 amended witness at `i = 1`, `N = 2`. -/
theorem channel_numbering_witness :
    chFor 1 = 2 ∧ 3 % 2 = 1 ∧ 3 / 2 = 1 ∧
      (mkState [80, 443]).inited.length = 2 * 2 :=
  channel_numbering 1 [80, 443] (by decide)

/-- C7: the inbound demultiplexer forwards to the coordinator exactly the
binary transport messages of total length ≥ 2, as
`FromPod(first byte, remaining bytes)`, preserving order; every other
message — text, ping, pong, close, frame, or binary of length ≤ 1 — is
silently discarded, producing no queue message (and, by construction of
`from_pod_loop`, no error). -/
theorem demux_policy (ms1 ms2 : List WsMessage) :
    (∀ b : List Nat, 2 ≤ b.length →
      from_pod_loop (ms1 ++ .binary b :: ms2) =
        from_pod_loop ms1 ++ .FromPod (b.headD 0) b.tail :: from_pod_loop ms2)
    ∧ (∀ m : WsMessage, (∀ b : List Nat, m = .binary b → b.length ≤ 1) →
      from_pod_loop (ms1 ++ m :: ms2) = from_pod_loop ms1 ++ from_pod_loop ms2) := by
  constructor
  · intro b hb
    have hb2 : b.length > 1 := by omega
    simp [from_pod_loop, List.filterMap_append, List.filterMap_cons, hb2]
  · intro m hm
    cases m with
    | binary b =>
      have hb : ¬ b.length > 1 := by
        have := hm b rfl
        omega
      simp [from_pod_loop, List.filterMap_append, List.filterMap_cons, hb]
    | text t => simp [from_pod_loop, List.filterMap_append, List.filterMap_cons]
    | ping b => simp [from_pod_loop, List.filterMap_append, List.filterMap_cons]
    | pong b => simp [from_pod_loop, List.filterMap_append, List.filterMap_cons]
    | close => simp [from_pod_loop, List.filterMap_append, List.filterMap_cons]
    | frame => simp [from_pod_loop, List.filterMap_append, List.filterMap_cons]

/-- C7 witness: a qualifying binary message `[0, 72, 73]` between a text
and a close message becomes `FromPod 0 [72, 73]`; a ping after a binary
message is dropped. -/
theorem demux_policy_witness :
    from_pod_loop ([.text [65]] ++ .binary [0, 72, 73] :: [.close]) =
      from_pod_loop [.text [65]] ++
        .FromPod 0 [72, 73] :: from_pod_loop [.close] ∧
    from_pod_loop ([.binary [7, 8]] ++ .ping [1] :: []) =
      from_pod_loop [.binary [7, 8]] ++ from_pod_loop ([] : List WsMessage) :=
  ⟨(demux_policy [.text [65]] [.close]).1 [0, 72, 73] (by decide),
   (demux_policy [.binary [7, 8]] []).2 (.ping [1]) (by intro b hb; simp at hb)⟩

/-- C8 counterexample: the claim fails as stated.  After the background
task stores the result, the first poll resolves with it, but
`state.result.take()` consumes it, so the next poll returns `Pending` —
the read is not idempotent and the result cannot be observed on any later
poll. -/
theorem poll_after_ready_pending_cex :
    (pfPoll (pfComplete ⟨none, none⟩ (.ok ())).1 0).1 = .ready (.ok ()) ∧
    (pfPoll (pfPoll (pfComplete ⟨none, none⟩ (.ok ())).1 0).2 0).1 = .pending := by
  decide

/-- C8 amended: once the background task has stored the session result, the
first subsequent poll resolves immediately with that result and consumes it
(`take`), so later polls return `Pending`; a caller polling before the
result exists gets `Pending` with its waker registered, and is woken
exactly once when the result is written. -/
theorem completion_contract (s : PFState) (r : Except Error Unit) (w : Nat) :
    (∀ r0, s.result = some r0 → pfPoll s w = (.ready r0, { s with result := none }))
    ∧ (s.result = none → (pfPoll s w).1 = .pending ∧ (pfPoll s w).2.waker = some w
        ∧ (pfPoll s w).2.result = none)
    ∧ (s.result = none → (pfComplete (pfPoll s w).2 r).2 = 1
        ∧ (pfComplete (pfPoll s w).2 r).1.result = some r) := by
  have hreg : s.result = none → (pfPoll s w).2.waker = some w := by
    intro h
    cases hw : s.waker with
    | none => simp [pfPoll, h, hw]
    | some w2 =>
      by_cases hww : w2 = w
      · simp [pfPoll, h, hw, hww]
      · simp [pfPoll, h, hw, hww]
  refine ⟨?_, ?_, ?_⟩
  · intro r0 h
    simp [pfPoll, h]
  · intro h
    refine ⟨?_, hreg h, ?_⟩
    · cases hw : s.waker with
      | none => simp [pfPoll, h, hw]
      | some w2 =>
        by_cases hww : w2 = w
        · simp [pfPoll, h, hw, hww]
        · simp [pfPoll, h, hw, hww]
    · cases hw : s.waker with
      | none => simp [pfPoll, h, hw]
      | some w2 =>
        by_cases hww : w2 = w
        · simp [pfPoll, h, hw, hww]
        · simp [pfPoll, h, hw, hww]
  · intro h
    have h2 := hreg h
    constructor
    · simp [pfComplete, h2]
    · simp [pfComplete]

/-- C8 amended witness: worked at two concrete states — one with a stored
result (`take` then resolves) and one polled before completion (pending,
then exactly one wake on completion). -/
theorem completion_contract_witness :
    pfPoll ⟨none, some (.ok ())⟩ 5 = (.ready (.ok ()), ⟨none, none⟩) ∧
    (pfPoll (⟨none, none⟩ : PFState) 5).1 = .pending ∧
    (pfComplete (pfPoll (⟨none, none⟩ : PFState) 5).2 (.ok ())).2 = 1 :=
  ⟨(completion_contract ⟨none, some (.ok ())⟩ (.ok ()) 5).1 (.ok ()) rfl,
   ((completion_contract ⟨none, none⟩ (.ok ()) 5).2.1 rfl).1,
   ((completion_contract ⟨none, none⟩ (.ok ()) 5).2.2 rfl).1⟩

/-- C9: per port the error signal fires at most once: the first
post-handshake error-channel frame that finds the sender present consumes
it (`fireError` sets the sender slot to `false`), and once the sender is
consumed every later error-channel frame for that port returns `.ok s`
unchanged — no signal fired, nothing written to any endpoint, and no
session termination. -/
theorem error_signal_once (s : CoordState) (ch : Nat) (payload : List Nat)
    (hwf : WF s) (hch : ch < 2 * s.ports.length)
    (hin : s.inited.getD ch false = true) (hodd : ch % 2 = 1) :
    (s.errorSenders.getD (ch / 2) false = true → utf8Valid payload = true →
      step s (.FromPod ch payload) = .ok (fireError s (ch / 2) payload))
    ∧ (s.errorSenders.getD (ch / 2) false = false →
      step s (.FromPod ch payload) = .ok s) := by
  obtain ⟨h1, h2, h3⟩ := hwf
  constructor
  · intro hsend hok
    exact step_err_fire s ch payload (by omega) hin hodd hsend hok
  · intro hsend
    exact step_err_dropped s ch payload (by omega) hin hodd hsend

/-- C9 witness: with the sender present the frame `"ok"` fires the signal
and consumes the sender; with the sender consumed, the same frame is a
no-op. -/
theorem error_signal_once_witness :
    step ⟨[80], [false, true], [true], [[]], [], []⟩ (.FromPod 1 [111, 107]) =
      .ok (fireError ⟨[80], [false, true], [true], [[]], [], []⟩ 0 [111, 107]) ∧
    step ⟨[80], [false, true], [false], [[]], [], []⟩ (.FromPod 1 [111, 107]) =
      .ok ⟨[80], [false, true], [false], [[]], [], []⟩ :=
  ⟨(error_signal_once ⟨[80], [false, true], [true], [[]], [], []⟩ 1 [111, 107]
      (by decide) (by decide) (by decide) (by decide)).1 (by decide) (by decide),
   (error_signal_once ⟨[80], [false, true], [false], [[]], [], []⟩ 1 [111, 107]
      (by decide) (by decide) (by decide) (by decide)).2 (by decide)⟩

/-- C10: every outbound transport message this client emits comes from the
`ToPod` branch and is `ch :: payload` for a chunk `to_pod_loop` forwarded;
since `to_pod_loop` drops empty chunks, every emitted binary message has
length ≥ 2 — the client never sends the short frames its own receive
policy ignores. -/
theorem outbound_frames_min_len (s : CoordState) (ch : Nat)
    (chunks : List (List Nat)) :
    runCoord s (to_pod_loop ch chunks) = .ok (appendWs s (outFrames ch chunks))
    ∧ ∀ m ∈ outFrames ch chunks, 2 ≤ m.length := by
  refine ⟨runCoord_to_pod ch chunks s, ?_⟩
  intro m hm
  simp only [outFrames, List.mem_filterMap] at hm
  obtain ⟨c, hc, hfc⟩ := hm
  by_cases hce : c.isEmpty
  · simp [hce] at hfc
  · simp only [hce, Bool.false_eq_true, if_false] at hfc
    have hne : c ≠ [] := by simpa using hce
    have hpos : 0 < c.length := List.length_pos.mpr hne
    have hmc := Option.some.inj hfc
    calc 2 ≤ c.length + 1 := by omega
    _ = m.length := by rw [← hmc]; simp

/-- C10 witness: chunks `[79]` and `[]` produce only the frame `[0, 79]`,
which has length 2. -/
theorem outbound_frames_min_len_witness :
    runCoord (mkState [8080]) (to_pod_loop 0 [[79], []]) =
      .ok (appendWs (mkState [8080]) (outFrames 0 [[79], []])) ∧
    2 ≤ [0, 79].length :=
  ⟨(outbound_frames_min_len (mkState [8080]) 0 [[79], []]).1,
   (outbound_frames_min_len (mkState [8080]) 0 [[79], []]).2 [0, 79] (by decide)⟩

end Portforward
